import Mathlib

/-!
Shallow embedding of the protocol/input core of the mutter Wayland compositor
fork under verification: the wl_surface double-buffered state machine
(meta-wayland-surface.c), the shell role-extension requests, the pointer
focus/grab router (meta-wayland-pointer.c) and the native seat input
translator (meta-seat-native.c).  Pure Lean functions mirror the C
functions; names follow the source.
-/

/- ------------------------------------------------------------------ -/
/- Cairo regions, as used by the surface code: a region is kept as the
   list of rectangles unioned into it.                                 -/
/- ------------------------------------------------------------------ -/
structure CairoRect where
  x : Int
  y : Int
  width : Int
  height : Int
deriving DecidableEq

abbrev CairoRegion := List CairoRect

def cairo_region_create : CairoRegion := []

def cairo_region_union_rectangle (region : CairoRegion) (rect : CairoRect) :
    CairoRegion :=
  region ++ [rect]

/-- Intersection of two rectangles; degenerate results are dropped, as
cairo drops empty rectangles from a region. -/
def rect_intersect (a b : CairoRect) : Option CairoRect :=
  let x1 := max a.x b.x
  let y1 := max a.y b.y
  let x2 := min (a.x + a.width) (b.x + b.width)
  let y2 := min (a.y + a.height) (b.y + b.height)
  if x1 < x2 ∧ y1 < y2 then some ⟨x1, y1, x2 - x1, y2 - y1⟩ else none

def cairo_region_intersect_rectangle (region : CairoRegion) (rect : CairoRect) :
    CairoRegion :=
  region.filterMap (fun a => rect_intersect a rect)

/-- empty_region from meta-wayland-surface.c: intersect with the (0,0,0,0)
rectangle. -/
def empty_region (region : CairoRegion) : CairoRegion :=
  cairo_region_intersect_rectangle region ⟨0, 0, 0, 0⟩

/- ------------------------------------------------------------------ -/
/- Surface state machine (meta-wayland-surface.c)                      -/
/- ------------------------------------------------------------------ -/
structure MetaWaylandBuffer where
  id : Nat
  width : Int
  height : Int
deriving DecidableEq

/-- The double-buffered pending state of a wl_surface
(MetaWaylandDoubleBufferedState in meta-wayland-surface.h). -/
structure MetaWaylandDoubleBufferedState where
  newly_attached : Bool
  buffer : Option MetaWaylandBuffer
  dx : Int
  dy : Int
  damage : CairoRegion
  opaque_region : Option CairoRegion
  input_region : Option CairoRegion
  frame_callback_list : List Nat
deriving DecidableEq

/-- The role a surface plays at commit time, as decided by the dispatch in
meta_wayland_surface_commit: the seat sprite (cursor), a surface with a
window (toplevel), a surface with a subsurface resource, or none. -/
inductive SurfaceRole
  | noRole
  | cursor
  | toplevel
  | subsurface
deriving DecidableEq

/-- The state the renderer collaborator (MetaSurfaceActor) has received. -/
structure MetaSurfaceActor where
  damage : CairoRegion
  opaque_region : Option CairoRegion
  input_region : Option CairoRegion
  buffer : Option MetaWaylandBuffer
deriving DecidableEq

structure MetaWaylandSurface where
  role : SurfaceRole
  pending : MetaWaylandDoubleBufferedState
  buffer_ref : Option MetaWaylandBuffer
  surface_actor : MetaSurfaceActor
deriving DecidableEq

def initialPendingState : MetaWaylandDoubleBufferedState :=
  { newly_attached := false
    buffer := none
    dx := 0
    dy := 0
    damage := cairo_region_create
    opaque_region := none
    input_region := none
    frame_callback_list := [] }

def meta_wayland_surface_create (role : SurfaceRole) : MetaWaylandSurface :=
  { role := role
    pending := initialPendingState
    buffer_ref := none
    surface_actor := { damage := [], opaque_region := none,
                       input_region := none, buffer := none } }

/-- wl_surface.attach handler. -/
def meta_wayland_surface_attach (s : MetaWaylandSurface)
    (buffer : Option MetaWaylandBuffer) (dx dy : Int) : MetaWaylandSurface :=
  { s with pending := { s.pending with
      dx := dx, dy := dy, buffer := buffer, newly_attached := true } }

/-- wl_surface.damage handler. -/
def meta_wayland_surface_damage (s : MetaWaylandSurface)
    (x y width height : Int) : MetaWaylandSurface :=
  { s with pending := { s.pending with
      damage := cairo_region_union_rectangle s.pending.damage
                  ⟨x, y, width, height⟩ } }

/-- wl_surface.set_opaque_region handler: clears the pending region, then
copies the given region if one is present. -/
def meta_wayland_surface_set_opaque_region (s : MetaWaylandSurface)
    (region : Option CairoRegion) : MetaWaylandSurface :=
  { s with pending := { s.pending with opaque_region := region } }

/-- wl_surface.set_input_region handler. -/
def meta_wayland_surface_set_input_region (s : MetaWaylandSurface)
    (region : Option CairoRegion) : MetaWaylandSurface :=
  { s with pending := { s.pending with input_region := region } }

/-- wl_surface.frame handler: appends the callback at the tail of the
pending frame-callback queue. -/
def meta_wayland_surface_frame (s : MetaWaylandSurface) (callback_id : Nat) :
    MetaWaylandSurface :=
  { s with pending := { s.pending with
      frame_callback_list := s.pending.frame_callback_list ++ [callback_id] } }

/-- surface_process_damage: forwards each pending damage rectangle to the
surface actor. -/
def surface_process_damage (s : MetaWaylandSurface) : MetaWaylandSurface :=
  { s with surface_actor := { s.surface_actor with
      damage := s.surface_actor.damage ++ s.pending.damage } }

/-- actor_surface_commit: swap the bound buffer if one was newly attached
and differs, forward damage, and apply the pending regions when set.
Returns the changed flag together with the new surface.  (The cogl
texture import in ensure_buffer_texture is an external collaborator.) -/
def actor_surface_commit (s : MetaWaylandSurface) :
    Bool × MetaWaylandSurface :=
  let changed := s.pending.newly_attached ∧ s.pending.buffer ≠ s.buffer_ref
  let s := if changed then
             { s with buffer_ref := s.pending.buffer,
                      surface_actor := { s.surface_actor with
                                           buffer := s.pending.buffer } }
           else s
  let s := surface_process_damage s
  let s := match s.pending.opaque_region with
           | some r => { s with surface_actor :=
               { s.surface_actor with opaque_region := some r } }
           | none => s
  let s := match s.pending.input_region with
           | some r => { s with surface_actor :=
               { s.surface_actor with input_region := some r } }
           | none => s
  (decide changed, s)

/-- cursor_surface_commit: only re-references the buffer; the sprite
update is an external collaborator call. -/
def cursor_surface_commit (s : MetaWaylandSurface) : MetaWaylandSurface :=
  if s.pending.newly_attached ∧ s.pending.buffer ≠ s.buffer_ref then
    { s with buffer_ref := s.pending.buffer }
  else s

/-- toplevel_surface_commit: the window resize/map calls go to the
window-manager collaborator; the surface-state effect is the actor
commit. -/
def toplevel_surface_commit (s : MetaWaylandSurface) : MetaWaylandSurface :=
  (actor_surface_commit s).2

/-- subsurface_surface_commit: actor commit plus show/hide/reposition of
the actor, which are collaborator calls. -/
def subsurface_surface_commit (s : MetaWaylandSurface) : MetaWaylandSurface :=
  (actor_surface_commit s).2

/-- meta_wayland_surface_commit: role dispatch, then the reset of the
pending state, and the move of pending frame callbacks onto the
compositor list.  Takes and returns the compositor frame-callback list
alongside the surface. -/
def meta_wayland_surface_commit (s : MetaWaylandSurface)
    (frame_callbacks : List Nat) : MetaWaylandSurface × List Nat :=
  let s := match s.role with
           | .cursor => cursor_surface_commit s
           | .toplevel => toplevel_surface_commit s
           | .subsurface => subsurface_surface_commit s
           | .noRole => s
  let s := { s with pending := { s.pending with buffer := none } }
  let s := { s with pending := { s.pending with
      dx := 0, dy := 0, newly_attached := false,
      opaque_region := none, input_region := none,
      damage := empty_region s.pending.damage } }
  let frame_callbacks := frame_callbacks ++ s.pending.frame_callback_list
  let s := { s with pending := { s.pending with frame_callback_list := [] } }
  (s, frame_callbacks)

/-- A client request against one surface, for reasoning about request
sequences. -/
inductive SurfaceOp
  | attach (buffer : Option MetaWaylandBuffer) (dx dy : Int)
  | damage (x y width height : Int)
  | setOpaqueRegion (region : Option CairoRegion)
  | setInputRegion (region : Option CairoRegion)
  | frame (callback_id : Nat)
  | commit

def applySurfaceOp (st : MetaWaylandSurface × List Nat) (op : SurfaceOp) :
    MetaWaylandSurface × List Nat :=
  match op with
  | .attach buffer dx dy => (meta_wayland_surface_attach st.1 buffer dx dy, st.2)
  | .damage x y w h => (meta_wayland_surface_damage st.1 x y w h, st.2)
  | .setOpaqueRegion r => (meta_wayland_surface_set_opaque_region st.1 r, st.2)
  | .setInputRegion r => (meta_wayland_surface_set_input_region st.1 r, st.2)
  | .frame id => (meta_wayland_surface_frame st.1 id, st.2)
  | .commit => meta_wayland_surface_commit st.1 st.2

def applySurfaceOps (st : MetaWaylandSurface × List Nat)
    (ops : List SurfaceOp) : MetaWaylandSurface × List Nat :=
  ops.foldl applySurfaceOp st

/-- C2 counterexample input: a toplevel surface whose client has just set a
pending opaque region. -/
def c2Surface : MetaWaylandSurface :=
  meta_wayland_surface_set_opaque_region
    (meta_wayland_surface_set_input_region
      (meta_wayland_surface_create SurfaceRole.toplevel)
      (some [⟨2, 2, 3, 3⟩]))
    (some [⟨0, 0, 4, 4⟩])

/- ------------------------------------------------------------------ -/
/- Shell role extensions (xdg_shell / wl_subcompositor requests in
   meta-wayland-surface.c)                                             -/
/- ------------------------------------------------------------------ -/
/-- The per-surface extension slots of MetaWaylandSurface; each holds the
protocol resource id once the extension has been created. -/
structure SurfaceExtensions where
  xdg_surface : Option Nat
  xdg_popup : Option Nat
  gtk_surface : Option Nat
  subsurface : Option Nat
deriving DecidableEq

inductive WlDisplayError
  | invalid_object
deriving DecidableEq

/-- create_surface_extension: fails iff this extension slot already holds
a resource; otherwise records the new resource id. -/
def create_surface_extension (extension : Option Nat) (id : Nat) :
    Bool × Option Nat :=
  match extension with
  | some r => (false, some r)
  | none => (true, some id)

/-- Result of a role request: the new extension slots, and the protocol
error posted to the client, if any (wl_resource_post_error terminates the
offending client connection; the compositor continues running). -/
structure RoleRequestResult where
  exts : SurfaceExtensions
  error : Option WlDisplayError
deriving DecidableEq

/-- xdg_shell.get_xdg_surface: checks only the xdg_surface extension slot;
on failure posts WL_DISPLAY_ERROR_INVALID_OBJECT.  (The window creation on
success is a window-manager collaborator call.) -/
def get_xdg_surface (exts : SurfaceExtensions) (id : Nat) :
    RoleRequestResult :=
  let r := create_surface_extension exts.xdg_surface id
  if r.1 then { exts := { exts with xdg_surface := r.2 }, error := none }
  else { exts := exts, error := some WlDisplayError.invalid_object }

/-- xdg_shell.get_xdg_popup: returns early with no effect when the parent
surface is absent or unmanaged; otherwise checks only the xdg_popup
extension slot.  (Window setup and the popup grab are modelled with the
pointer code below.) -/
def get_xdg_popup (exts : SurfaceExtensions) (parent_ok : Bool) (id : Nat) :
    RoleRequestResult :=
  if !parent_ok then { exts := exts, error := none }
  else
    let r := create_surface_extension exts.xdg_popup id
    if r.1 then { exts := { exts with xdg_popup := r.2 }, error := none }
    else { exts := exts, error := some WlDisplayError.invalid_object }

/-- wl_subcompositor.get_subsurface: checks only the subsurface extension
slot. -/
def wl_subcompositor_get_subsurface (exts : SurfaceExtensions) (id : Nat) :
    RoleRequestResult :=
  let r := create_surface_extension exts.subsurface id
  if r.1 then { exts := { exts with subsurface := r.2 }, error := none }
  else { exts := exts, error := some WlDisplayError.invalid_object }

/- ------------------------------------------------------------------ -/
/- Pointer focus and grab router (meta-wayland-pointer.c)              -/
/- ------------------------------------------------------------------ -/
/-- A client surface as the pointer code sees it: its resource identity
and the client connection owning it. -/
structure WlSurface where
  id : Nat
  client : Nat
deriving DecidableEq

/-- The state of an active popup grab (MetaWaylandPopupGrab): the owning
client and the tracked open popups, most recently opened first
(wl_list_insert at the head of all_popups). -/
structure MetaWaylandPopupGrab where
  grab_client : Nat
  all_popups : List Nat
deriving DecidableEq

/-- The active grab: the pointer's own default grab, the compositor modal
grab, or a popup grab. -/
inductive PointerGrab
  | defaultGrab
  | modal
  | popup (g : MetaWaylandPopupGrab)
deriving DecidableEq

/-- Protocol messages and notifications the pointer code sends. -/
inductive PointerMsg
  | leave (serial : Nat) (surface : Nat)
  | modifiers (serial : Nat)
  | enter (serial : Nat) (surface : Nat)
  | motion
  | button (serial : Nat) (button : Nat) (pressed : Bool)
  | popup_done (surface : Nat)
deriving DecidableEq

/-- MetaWaylandPointer state.  resource_list and the keyboard resource
list are (client, resource) pairs; serial is the wl_display serial
counter. -/
structure MetaWaylandPointer where
  grab : PointerGrab
  focus : Option WlSurface
  focus_resource : Option Nat
  focus_serial : Nat
  button_count : Nat
  current : Option WlSurface
  resource_list : List (Nat × Nat)
  kbd_resource_list : List (Nat × Nat)
  serial : Nat
deriving DecidableEq

/-- find_resource_for_surface: wl_resource_find_for_client over the
resource list, keyed by the surface's owning client; NULL surface gives
NULL. -/
def find_resource_for_surface (list : List (Nat × Nat))
    (surface : Option WlSurface) : Option Nat :=
  match surface with
  | none => none
  | some s => (list.find? (fun cr => cr.1 = s.client)).map (fun cr => cr.2)

/-- meta_wayland_pointer_set_focus: send leave to the old focus resource
when focus changes, then look up the new surface's pointer resource and,
if focus or resource changes, send the keyboard modifiers (when the
client has a keyboard resource) and enter with a fresh serial.  The C
code reads pointer->focus->resource in the leave branch; the
(focus_resource nonnull implies focus nonnull) invariant makes the getD
defaulting unreachable. -/
def meta_wayland_pointer_set_focus (p : MetaWaylandPointer)
    (surface : Option WlSurface) : MetaWaylandPointer × List PointerMsg :=
  let step1 :=
    match p.focus_resource with
    | some _ =>
        if p.focus ≠ surface then
          ({ p with serial := p.serial + 1 },
           [PointerMsg.leave (p.serial + 1) ((p.focus.map WlSurface.id).getD 0)])
        else (p, [])
    | none => (p, [])
  let p1 := step1.1
  let resource := find_resource_for_surface p1.resource_list surface
  let step2 :=
    match resource, surface with
    | some r, some s =>
        if p1.focus ≠ surface ∨ p1.focus_resource ≠ some r then
          let serial := p1.serial + 1
          let kmsgs :=
            match find_resource_for_surface p1.kbd_resource_list surface with
            | some _ => [PointerMsg.modifiers serial]
            | none => []
          ({ p1 with serial := serial, focus_serial := serial },
           kmsgs ++ [PointerMsg.enter serial s.id])
        else (p1, [])
    | _, _ => (p1, [])
  let p2 := step2.1
  ({ p2 with focus_resource := resource, focus := surface },
   step1.2 ++ step2.2)

/-- default_grab_focus: with a button held, focus is frozen; otherwise
focus follows the given surface. -/
def default_grab_focus (p : MetaWaylandPointer) (surface : Option WlSurface) :
    MetaWaylandPointer × List PointerMsg :=
  if p.button_count > 0 then (p, [])
  else meta_wayland_pointer_set_focus p surface

/-- default_grab_motion: sends motion to the focus resource when there is
one. -/
def default_grab_motion (p : MetaWaylandPointer) :
    MetaWaylandPointer × List PointerMsg :=
  match p.focus_resource with
  | some _ => (p, [PointerMsg.motion])
  | none => (p, [])

/-- Clutter button numbers are remapped to evdev codes before being sent
(right and middle are swapped relative to Clutter's numbering). -/
def clutterButtonToEvdev (button : Nat) : Nat :=
  if button = 2 then 0x112
  else if button = 3 then 0x111
  else button + 0x110 - 1

/-- default_grab_button: forwards the button to the focus resource, and
once the button count is back to zero on a release, re-evaluates focus
against the current surface. -/
def default_grab_button (p : MetaWaylandPointer) (pressed : Bool)
    (button : Nat) : MetaWaylandPointer × List PointerMsg :=
  let step1 :=
    match p.focus_resource with
    | some _ =>
        ({ p with serial := p.serial + 1 },
         [PointerMsg.button (p.serial + 1) (clutterButtonToEvdev button)
            pressed])
    | none => (p, [])
  let p1 := step1.1
  if p1.button_count = 0 ∧ pressed = false then
    let step2 := meta_wayland_pointer_set_focus p1 p1.current
    (step2.1, step1.2 ++ step2.2)
  else (p1, step1.2)

/-- popup_grab_focus: owner-events semantics; surfaces of other clients
collapse focus to none. -/
def popup_grab_focus (p : MetaWaylandPointer) (grab_client : Nat)
    (surface : WlSurface) : MetaWaylandPointer × List PointerMsg :=
  if surface.client = grab_client then default_grab_focus p (some surface)
  else meta_wayland_pointer_set_focus p none

/-- The focus method of the interface of a grab, dispatched on the grab
kind (modal_focus is a no-op). -/
def grab_interface_focus (p : MetaWaylandPointer) (grab : PointerGrab)
    (surface : WlSurface) : MetaWaylandPointer × List PointerMsg :=
  match grab with
  | .defaultGrab => default_grab_focus p (some surface)
  | .modal => (p, [])
  | .popup g => popup_grab_focus p g.grab_client surface

/-- meta_wayland_pointer_start_grab: install the grab and run its focus
method on the current surface when there is one. -/
def meta_wayland_pointer_start_grab (p : MetaWaylandPointer)
    (grab : PointerGrab) : MetaWaylandPointer × List PointerMsg :=
  let p := { p with grab := grab }
  match p.current with
  | some c => grab_interface_focus p grab c
  | none => (p, [])

/-- meta_wayland_pointer_end_grab: back to the default grab, whose focus
method is run on the current surface (the C code passes pointer->current
unconditionally; default_grab_focus accepts NULL). -/
def meta_wayland_pointer_end_grab (p : MetaWaylandPointer) :
    MetaWaylandPointer × List PointerMsg :=
  let p := { p with grab := PointerGrab.defaultGrab }
  default_grab_focus p p.current

/-- meta_wayland_pointer_begin_modal: fails while any non-default grab is
active; otherwise drops focus and installs the opaque modal grab. -/
def meta_wayland_pointer_begin_modal (p : MetaWaylandPointer) :
    Bool × MetaWaylandPointer × List PointerMsg :=
  if p.grab ≠ PointerGrab.defaultGrab then (false, p, [])
  else
    let step1 := meta_wayland_pointer_set_focus p none
    let step2 := meta_wayland_pointer_start_grab step1.1 PointerGrab.modal
    (true, step2.1, step1.2 ++ step2.2)

/-- meta_wayland_pointer_end_popup_grab: sends popup_done to every popup
still tracked by the grab, empties the tracked set, and ends the grab
(reverting to the default grab). -/
def meta_wayland_pointer_end_popup_grab (p : MetaWaylandPointer) :
    MetaWaylandPointer × List PointerMsg :=
  match p.grab with
  | .popup g =>
      let dones := g.all_popups.map PointerMsg.popup_done
      let step := meta_wayland_pointer_end_grab p
      (step.1, dones ++ step.2)
  | _ => (p, [])

/-- popup_grab_button: with a focus resource the button is delivered
normally; otherwise a release with zero buttons held ends the popup
grab. -/
def popup_grab_button (p : MetaWaylandPointer) (pressed : Bool)
    (button : Nat) : MetaWaylandPointer × List PointerMsg :=
  match p.focus_resource with
  | some _ => default_grab_button p pressed button
  | none =>
      if pressed = false ∧ p.button_count = 0 then
        meta_wayland_pointer_end_popup_grab p
      else (p, [])

/-- popup_grab_motion is default_grab_motion. -/
def popup_grab_motion (p : MetaWaylandPointer) :
    MetaWaylandPointer × List PointerMsg :=
  default_grab_motion p

/-- on_popup_surface_destroy: drop the destroyed popup from the grab's
tracked set; if the set became empty, end the popup grab. -/
def on_popup_surface_destroy (p : MetaWaylandPointer) (surface_id : Nat) :
    MetaWaylandPointer × List PointerMsg :=
  match p.grab with
  | .popup g =>
      let g1 : MetaWaylandPopupGrab :=
        { g with all_popups := g.all_popups.erase surface_id }
      let p1 := { p with grab := PointerGrab.popup g1 }
      if g1.all_popups = [] then meta_wayland_pointer_end_popup_grab p1
      else (p1, [])
  | _ => (p, [])

/-- meta_wayland_pointer_start_popup_grab, exactly as the source has it:
whenever any non-default grab is active the function returns FALSE and
changes nothing — the inner same-client check and the later reuse of the
active popup grab are dead code, because the return FALSE under the
non-default branch is unconditional.  Under the default grab a fresh
popup grab is created, installed (running popup_grab_focus on the
current surface) and the surface is inserted at the head of its popup
list. -/
def meta_wayland_pointer_start_popup_grab (p : MetaWaylandPointer)
    (surface : WlSurface) : Bool × MetaWaylandPointer × List PointerMsg :=
  if p.grab ≠ PointerGrab.defaultGrab then (false, p, [])
  else
    let g : MetaWaylandPopupGrab :=
      { grab_client := surface.client, all_popups := [] }
    let step := meta_wayland_pointer_start_grab p (PointerGrab.popup g)
    let p1 := step.1
    let p2 :=
      match p1.grab with
      | .popup g' =>
          let g2 : MetaWaylandPopupGrab :=
            { g' with all_popups := surface.id :: g'.all_popups }
          { p1 with grab := PointerGrab.popup g2 }
      | _ => p1
    (true, p2, step.2)

/-- A pointer with an active popup grab owned by client 7 that tracks the
popup surface 5 (and 6), used to exercise the popup-grab entry points. -/
def popupGrabPointer : MetaWaylandPointer :=
  { grab := PointerGrab.popup { grab_client := 7, all_popups := [5, 6] },
    focus := none, focus_resource := none, focus_serial := 0,
    button_count := 0, current := none, resource_list := [],
    kbd_resource_list := [], serial := 3 }

/- ------------------------------------------------------------------ -/
/- Native seat input translator (meta-seat-native.c)                   -/
/- ------------------------------------------------------------------ -/
/-- update_button_count: a press increments the per-button counter; a
release decrements it unless it is already zero (handling releases whose
press was never seen), and returns the new value. -/
def update_button_count (count : Int) (state : Bool) : Int :=
  if state then count + 1
  else if count = 0 then 0
  else count - 1

def BTN_LEFT : Nat := 0x110

def BTN_RIGHT : Nat := 0x111

def BTN_MIDDLE : Nat := 0x112

def BTN_STYLUS3 : Nat := 0x149

def BTN_TOUCH : Nat := 0x14a

def BTN_STYLUS : Nat := 0x14b

def BTN_STYLUS2 : Nat := 0x14c

def BTN_TOOL_PEN : Nat := 0x140

/-- The evdev-to-clutter button renumbering in
meta_seat_native_notify_button (primary/secondary/middle before the extra
buttons), over the integers so that the below-range rejection is
visible. -/
def evdev_button_nr (is_tablet : Bool) (button : Nat) : Int :=
  if button = BTN_LEFT ∨ button = BTN_TOUCH then 1
  else if button = BTN_RIGHT ∨ button = BTN_STYLUS then 3
  else if button = BTN_MIDDLE ∨ button = BTN_STYLUS2 then 2
  else if button = BTN_STYLUS3 then 8
  else if is_tablet then (button : Int) - BTN_TOOL_PEN + 4
  else (button : Int) - (BTN_LEFT - 1) + 4

/-- The event-dropping decisions of meta_seat_native_notify_button: the
repeated-press/unmatched-release guard from update_button_count's result,
then the no-stage drop, then the out-of-range button number drop. -/
def notify_button_forwards (has_stage : Bool) (is_tablet : Bool)
    (button : Nat) (new_count : Int) (state : Bool) : Bool :=
  if state ∧ new_count > 1 then false
  else if ¬state ∧ new_count ≠ 0 then false
  else if ¬has_stage then false
  else if evdev_button_nr is_tablet button < 1
            ∨ evdev_button_nr is_tablet button > 12 then false
  else true

/-- Result of running a sequence of raw reports for one physical button
through meta_seat_native_notify_button: the final counter and how many
logical press and release events were forwarded. -/
structure ButtonRun where
  count : Int
  presses : Nat
  releases : Nat
deriving DecidableEq

def run_button_reports (has_stage : Bool) (is_tablet : Bool) (button : Nat)
    (count : Int) : List Bool → ButtonRun
  | [] => { count := count, presses := 0, releases := 0 }
  | state :: rest =>
      let nc := update_button_count count state
      let fwd := notify_button_forwards has_stage is_tablet button nc state
      let r := run_button_reports has_stage is_tablet button nc rest
      if state then
        { r with presses := (if fwd then 1 else 0) + r.presses }
      else
        { r with releases := (if fwd then 1 else 0) + r.releases }

/- Touch slot table (meta_seat_native_acquire_touch_state,
   ensure_seat_slot_allocated, meta_seat_native_release_touch_state).
   touch_states is kept as the occupancy of each allocated seat slot
   (touch_states[i] != NULL). -/
def size_increase : Nat := 5

/-- ensure_seat_slot_allocated: grow the table by a fixed increment of 5
(new entries free) when the chosen slot is not yet allocated. -/
def ensure_seat_slot_allocated (touch_states : List Bool) (seat_slot : Nat) :
    List Bool :=
  if touch_states.length ≤ seat_slot then
    touch_states ++ List.replicate size_increase false
  else touch_states

/-- The scan in meta_seat_native_acquire_touch_state: the first seat slot
not holding a touch state, or the table length when all are taken. -/
def first_free_slot : List Bool → Nat
  | [] => 0
  | occupied :: rest => if occupied then first_free_slot rest + 1 else 0

/-- meta_seat_native_acquire_touch_state: pick the first free seat slot,
growing the table if the scan ran off its end, and mark it taken. -/
def meta_seat_native_acquire_touch_state (touch_states : List Bool) :
    Nat × List Bool :=
  let seat_slot := first_free_slot touch_states
  let ts := ensure_seat_slot_allocated touch_states seat_slot
  (seat_slot, ts.set seat_slot true)

/-- meta_seat_native_release_touch_state: free the slot again. -/
def meta_seat_native_release_touch_state (touch_states : List Bool)
    (seat_slot : Nat) : List Bool :=
  touch_states.set seat_slot false

/-- A touch lifecycle event: a new contact beginning, or the i-th
currently live contact ending (releasing its slot through
meta_seat_native_release_touch_state). -/
inductive TouchOp
  | down
  | up (i : Nat)

/-- The seat's touch table together with the seat slots of the currently
live touches (most recent first). -/
structure TouchSeat where
  touch_states : List Bool
  live : List Nat

def touchStep (s : TouchSeat) : TouchOp → TouchSeat
  | .down =>
      let r := meta_seat_native_acquire_touch_state s.touch_states
      { touch_states := r.2, live := r.1 :: s.live }
  | .up i =>
      match s.live.get? i with
      | some slot =>
          { touch_states :=
              meta_seat_native_release_touch_state s.touch_states slot,
            live := s.live.eraseIdx i }
      | none => s

def touchRun (ops : List TouchOp) : TouchSeat :=
  ops.foldl touchStep { touch_states := [], live := [] }

/-- The invariant tying the live list to the table: live slots are
distinct and all marked taken. -/
def TouchInv (s : TouchSeat) : Prop :=
  s.live.Nodup ∧ ∀ slot ∈ s.live, s.touch_states.getD slot false = true

/- Scroll discretization (check_notify_discrete_scroll and
   meta_seat_native_notify_scroll_continuous).  The C code accumulates
   per-axis doubles; the embedding uses exact rationals.  fmodf keeps the
   sign of the dividend (truncated division), which truncQ mirrors. -/
def DISCRETE_SCROLL_STEP : ℚ := 10

/-- Truncation toward zero, as C float-to-int conversion and fmodf use. -/
def truncQ (q : ℚ) : Int := if 0 ≤ q then ⌊q⌋ else -⌊-q⌋

/-- fmodf: remainder with the sign of the dividend. -/
def fmodQ (x y : ℚ) : ℚ := x - y * (truncQ (x / y) : ℚ)

inductive ScrollDir
  | up
  | down
  | left
  | right
deriving DecidableEq

/-- check_notify_discrete_scroll restricted to one axis (the code treats
the horizontal and vertical accumulators independently and identically;
right/down is the positive direction): floor(|accum|/10) discrete events
in the direction of the accumulated sign, then the accumulator is reduced
to fmodf(accum, 10). -/
def check_notify_discrete_scroll (accum : ℚ) : List ScrollDir × ℚ :=
  let n := (⌊|accum| / DISCRETE_SCROLL_STEP⌋).toNat
  (List.replicate n (if 0 < accum then ScrollDir.right else ScrollDir.left),
   fmodQ accum DISCRETE_SCROLL_STEP)

/-- meta_seat_native_notify_scroll_continuous for one axis: a finish flag
for the axis zeroes the accumulator instead of adding the delta; the
smooth-scroll event itself goes out unconditionally and the discrete
check runs afterwards. -/
def meta_seat_native_notify_scroll_continuous (accum : ℚ) (delta : ℚ)
    (finished : Bool) : List ScrollDir × ℚ :=
  let accum := if finished then 0 else accum + delta
  check_notify_discrete_scroll accum

/-- Run a sequence of continuous scroll reports (delta, finish-flag) on
one axis, collecting the synthesized discrete events. -/
def runScroll (accum : ℚ) : List (ℚ × Bool) → List ScrollDir × ℚ
  | [] => ([], accum)
  | (d, f) :: rest =>
      let r1 := meta_seat_native_notify_scroll_continuous accum d f
      let r2 := runScroll r1.2 rest
      (r1.1 ++ r2.1, r2.2)

def dirFlip : ScrollDir → ScrollDir
  | .up => .down
  | .down => .up
  | .left => .right
  | .right => .left

/- ------------------------------------------------------------------ -/
/- Theorems                                                            -/
/- ------------------------------------------------------------------ -/

theorem rect_intersect_zero (a : CairoRect) :
    rect_intersect a ⟨0, 0, 0, 0⟩ = none := by
  unfold rect_intersect
  simp only
  rw [if_neg]
  intro ⟨h1, h2⟩
  omega

theorem empty_region_eq_nil (region : CairoRegion) :
    empty_region region = [] := by
  unfold empty_region cairo_region_intersect_rectangle
  induction region with
  | nil => rfl
  | cons a rest ih =>
      simp [List.filterMap_cons, rect_intersect_zero, ih]

/- Helper lemmas about commit -/
theorem actor_surface_commit_pending (s : MetaWaylandSurface) :
    (actor_surface_commit s).2.pending = s.pending := by
  unfold actor_surface_commit surface_process_damage
  cases h : s.pending.opaque_region <;>
    cases h' : s.pending.input_region <;>
    by_cases hc : s.pending.newly_attached ∧ s.pending.buffer ≠ s.buffer_ref <;>
    simp [hc, h, h']

theorem cursor_surface_commit_pending (s : MetaWaylandSurface) :
    (cursor_surface_commit s).pending = s.pending := by
  unfold cursor_surface_commit
  by_cases hc : s.pending.newly_attached ∧ s.pending.buffer ≠ s.buffer_ref <;>
    simp [hc]

/-- commit resets the whole pending state to its initial value. -/
theorem commit_resets_pending (s : MetaWaylandSurface)
    (frame_callbacks : List Nat) :
    (meta_wayland_surface_commit s frame_callbacks).1.pending =
      initialPendingState := by
  unfold meta_wayland_surface_commit initialPendingState
  cases hr : s.role <;>
    simp [cursor_surface_commit_pending, toplevel_surface_commit,
          subsurface_surface_commit, actor_surface_commit_pending,
          empty_region_eq_nil, cairo_region_create]

theorem applySurfaceOps_append (st : MetaWaylandSurface × List Nat)
    (ops₁ ops₂ : List SurfaceOp) :
    applySurfaceOps st (ops₁ ++ ops₂) =
      applySurfaceOps (applySurfaceOps st ops₁) ops₂ := by
  unfold applySurfaceOps
  exact List.foldl_append _ _ _ _

/-- C1: For every sequence of attach/damage/commit requests on a surface,
immediately after commit returns the surface's pending damage region is
empty, the pending buffer-attach flag (newly_attached) is false, the
pending buffer reference is cleared, and the pending attach offset dx/dy
is 0. -/
theorem commit_clears_pending_attach_and_damage
    (start : MetaWaylandSurface × List Nat) (ops : List SurfaceOp) :
    ((applySurfaceOps start (ops ++ [SurfaceOp.commit])).1.pending.damage = []
      ∧ (applySurfaceOps start
          (ops ++ [SurfaceOp.commit])).1.pending.newly_attached = false
      ∧ (applySurfaceOps start
          (ops ++ [SurfaceOp.commit])).1.pending.buffer = none
      ∧ (applySurfaceOps start (ops ++ [SurfaceOp.commit])).1.pending.dx = 0
      ∧ (applySurfaceOps start (ops ++ [SurfaceOp.commit])).1.pending.dy = 0) := by
  rw [applySurfaceOps_append]
  have h : (applySurfaceOps start (ops ++ [SurfaceOp.commit])).1.pending =
      initialPendingState := by
    rw [applySurfaceOps_append]
    simpa [applySurfaceOps, applySurfaceOp] using
      commit_resets_pending (applySurfaceOps start ops).1
        (applySurfaceOps start ops).2
  rw [applySurfaceOps_append] at h
  simp only [applySurfaceOps, List.foldl_cons, List.foldl_nil,
    applySurfaceOp] at h ⊢
  rw [h]
  exact ⟨rfl, rfl, rfl, rfl, rfl⟩

/-- C2 counterexample: the claim says that after a commit the pending
opaque and input regions retain the values they had before the commit.
On the concrete surface c2Surface, the commit clears both pending regions
to none, so neither retains its pre-commit value. -/
theorem commit_clears_pending_regions_counterexample :
    c2Surface.pending.opaque_region = some [⟨0, 0, 4, 4⟩]
      ∧ c2Surface.pending.input_region = some [⟨2, 2, 3, 3⟩]
      ∧ (meta_wayland_surface_commit c2Surface []).1.pending.opaque_region
          ≠ c2Surface.pending.opaque_region
      ∧ (meta_wayland_surface_commit c2Surface []).1.pending.input_region
          ≠ c2Surface.pending.input_region := by
  refine ⟨rfl, rfl, ?_, ?_⟩ <;> decide

/-- C2 amended: commit resets the pending opaque and input regions to
unset (none), exactly as it resets damage and the buffer-attach state;
what persists across commits is the pair of regions last applied to the
surface actor, because a commit replaces an actor region only when the
corresponding pending region was set this cycle (and only in the
toplevel/subsurface role paths, which run actor_surface_commit). -/
theorem commit_resets_pending_regions_actor_persists
    (s : MetaWaylandSurface) (frame_callbacks : List Nat) :
    ((meta_wayland_surface_commit s frame_callbacks).1.pending.opaque_region
        = none
      ∧ (meta_wayland_surface_commit s frame_callbacks).1.pending.input_region
          = none
      ∧ (meta_wayland_surface_commit s
            frame_callbacks).1.surface_actor.opaque_region
          = (match s.role, s.pending.opaque_region with
             | SurfaceRole.toplevel, some r => some r
             | SurfaceRole.subsurface, some r => some r
             | _, _ => s.surface_actor.opaque_region)
      ∧ (meta_wayland_surface_commit s
            frame_callbacks).1.surface_actor.input_region
          = (match s.role, s.pending.input_region with
             | SurfaceRole.toplevel, some r => some r
             | SurfaceRole.subsurface, some r => some r
             | _, _ => s.surface_actor.input_region)) := by
  refine ⟨?_, ?_, ?_, ?_⟩ <;>
  · cases hr : s.role <;>
      cases ho : s.pending.opaque_region <;>
        cases hi : s.pending.input_region <;>
          by_cases hc : s.pending.newly_attached ∧ s.pending.buffer ≠ s.buffer_ref <;>
            simp [meta_wayland_surface_commit, cursor_surface_commit,
                  toplevel_surface_commit, subsurface_surface_commit,
                  actor_surface_commit, surface_process_damage, hr, ho, hi, hc]

/-- C3 counterexample: a surface that already has the popup role (its
xdg_popup extension is set) accepts a later get_xdg_surface request
without any protocol error, installing a second role, contrary to the
claim that any second role-assignment request on a surface that already
has a role is rejected. -/
theorem second_role_not_rejected_counterexample :
    (get_xdg_surface
        { xdg_surface := none, xdg_popup := some 1,
          gtk_surface := none, subsurface := none } 2).error = none
      ∧ (get_xdg_surface
          { xdg_surface := none, xdg_popup := some 1,
            gtk_surface := none, subsurface := none } 2).exts =
        { xdg_surface := some 2, xdg_popup := some 1,
          gtk_surface := none, subsurface := none } := by
  exact ⟨rfl, rfl⟩

/-- C3 amended: a second role-assignment request of the same role kind is
rejected with a WL_DISPLAY_ERROR_INVALID_OBJECT protocol error posted to
the offending client (terminating that client connection, not the
compositor) and leaves the surface's extensions unchanged; a
role-assignment request of a different role kind than the one already
held is not rejected. -/
theorem same_role_twice_rejected (exts : SurfaceExtensions) (id : Nat) :
    (exts.xdg_surface.isSome = true →
        get_xdg_surface exts id =
          { exts := exts, error := some WlDisplayError.invalid_object })
      ∧ (exts.xdg_popup.isSome = true →
          get_xdg_popup exts true id =
            { exts := exts, error := some WlDisplayError.invalid_object })
      ∧ (exts.subsurface.isSome = true →
          wl_subcompositor_get_subsurface exts id =
            { exts := exts, error := some WlDisplayError.invalid_object })
      ∧ (exts.xdg_surface = none → exts.xdg_popup.isSome = true →
          (get_xdg_surface exts id).error = none) := by
  refine ⟨?_, ?_, ?_, ?_⟩
  · intro h
    cases hx : exts.xdg_surface with
    | none => rw [hx] at h; simp at h
    | some r => simp [get_xdg_surface, create_surface_extension, hx]
  · intro h
    cases hx : exts.xdg_popup with
    | none => rw [hx] at h; simp at h
    | some r => simp [get_xdg_popup, create_surface_extension, hx]
  · intro h
    cases hx : exts.subsurface with
    | none => rw [hx] at h; simp at h
    | some r => simp [wl_subcompositor_get_subsurface,
                      create_surface_extension, hx]
  · intro hnone _
    simp [get_xdg_surface, create_surface_extension, hnone]

/-- C3 witness: the amended theorem applied at a surface holding every
role slot. -/
theorem same_role_twice_rejected_witness :
    (get_xdg_surface
        { xdg_surface := some 1, xdg_popup := some 2,
          gtk_surface := none, subsurface := some 3 } 9 =
      { exts := { xdg_surface := some 1, xdg_popup := some 2,
                  gtk_surface := none, subsurface := some 3 },
        error := some WlDisplayError.invalid_object })
      ∧ (get_xdg_popup
          { xdg_surface := some 1, xdg_popup := some 2,
            gtk_surface := none, subsurface := some 3 } true 9 =
        { exts := { xdg_surface := some 1, xdg_popup := some 2,
                    gtk_surface := none, subsurface := some 3 },
          error := some WlDisplayError.invalid_object })
      ∧ (wl_subcompositor_get_subsurface
          { xdg_surface := some 1, xdg_popup := some 2,
            gtk_surface := none, subsurface := some 3 } 9 =
        { exts := { xdg_surface := some 1, xdg_popup := some 2,
                    gtk_surface := none, subsurface := some 3 },
          error := some WlDisplayError.invalid_object }) := by
  refine ⟨?_, ?_, ?_⟩
  · exact (same_role_twice_rejected
      { xdg_surface := some 1, xdg_popup := some 2,
        gtk_surface := none, subsurface := some 3 } 9).1 rfl
  · exact (same_role_twice_rejected
      { xdg_surface := some 1, xdg_popup := some 2,
        gtk_surface := none, subsurface := some 3 } 9).2.1 rfl
  · exact (same_role_twice_rejected
      { xdg_surface := some 1, xdg_popup := some 2,
        gtk_surface := none, subsurface := some 3 } 9).2.2.1 rfl

/- Helper lemmas: set_focus never changes the grab, the button count, the
   current surface or the resource lists. -/
theorem set_focus_grab (p : MetaWaylandPointer) (surface : Option WlSurface) :
    (meta_wayland_pointer_set_focus p surface).1.grab = p.grab := by
  unfold meta_wayland_pointer_set_focus
  dsimp only
  repeat' split <;> simp_all

theorem set_focus_button_count (p : MetaWaylandPointer)
    (surface : Option WlSurface) :
    (meta_wayland_pointer_set_focus p surface).1.button_count
      = p.button_count := by
  unfold meta_wayland_pointer_set_focus
  dsimp only
  repeat' split <;> simp_all

theorem set_focus_current (p : MetaWaylandPointer)
    (surface : Option WlSurface) :
    (meta_wayland_pointer_set_focus p surface).1.current = p.current := by
  unfold meta_wayland_pointer_set_focus
  dsimp only
  repeat' split <;> simp_all

theorem default_grab_focus_grab (p : MetaWaylandPointer)
    (surface : Option WlSurface) :
    (default_grab_focus p surface).1.grab = p.grab := by
  unfold default_grab_focus
  split
  · rfl
  · exact set_focus_grab p surface

theorem default_grab_button_grab (p : MetaWaylandPointer)
    (pressed : Bool) (button : Nat) :
    (default_grab_button p pressed button).1.grab = p.grab := by
  unfold default_grab_button
  dsimp only
  cases hf : p.focus_resource <;> dsimp only <;> split <;>
    simp [set_focus_grab]

/-- C10: Setting pointer focus is idempotent: calling
meta_wayland_pointer_set_focus with the surface that is already the
pointer's focus, while the focus resource is already that surface
client's pointer resource, sends no leave, enter or modifier message and
leaves the whole pointer state (focus, focus resource, focus serial)
unchanged. -/
theorem set_focus_idempotent (p : MetaWaylandPointer) (s : WlSurface)
    (h1 : p.focus = some s)
    (h2 : p.focus_resource = find_resource_for_surface p.resource_list (some s)) :
    meta_wayland_pointer_set_focus p (some s) = (p, []) := by
  obtain ⟨grab, focus, fres, fs, bc, cur, rl, krl, ser⟩ := p
  simp only at h1 h2
  subst h1
  cases fres with
  | none =>
      unfold meta_wayland_pointer_set_focus
      simp [← h2]
  | some r =>
      unfold meta_wayland_pointer_set_focus
      simp [← h2]

/-- C10 witness: a concrete pointer already focused on surface 1 of
client 5 through resource 100. -/
theorem set_focus_idempotent_witness :
    meta_wayland_pointer_set_focus
        { grab := PointerGrab.defaultGrab, focus := some ⟨1, 5⟩,
          focus_resource := some 100, focus_serial := 7, button_count := 0,
          current := some ⟨1, 5⟩, resource_list := [(5, 100)],
          kbd_resource_list := [(5, 200)], serial := 9 } (some ⟨1, 5⟩) =
      ({ grab := PointerGrab.defaultGrab, focus := some ⟨1, 5⟩,
         focus_resource := some 100, focus_serial := 7, button_count := 0,
         current := some ⟨1, 5⟩, resource_list := [(5, 100)],
         kbd_resource_list := [(5, 200)], serial := 9 }, []) :=
  set_focus_idempotent
    { grab := PointerGrab.defaultGrab, focus := some ⟨1, 5⟩,
      focus_resource := some 100, focus_serial := 7, button_count := 0,
      current := some ⟨1, 5⟩, resource_list := [(5, 100)],
      kbd_resource_list := [(5, 200)], serial := 9 } ⟨1, 5⟩ rfl rfl

/-- C8: Exactly one grab (default, modal or popup) is active at a time —
the grab field is always one of the three constructors of PointerGrab —
and begin_modal under a non-default grab returns false leaving the whole
pointer state (grab, focus, focus resource) unchanged, while begin_modal
under the default grab returns true and installs the modal grab. -/
theorem begin_modal_exclusive (p : MetaWaylandPointer) :
    (p.grab = PointerGrab.defaultGrab ∨ p.grab = PointerGrab.modal
        ∨ ∃ g, p.grab = PointerGrab.popup g)
      ∧ (p.grab ≠ PointerGrab.defaultGrab →
          meta_wayland_pointer_begin_modal p = (false, p, []))
      ∧ (p.grab = PointerGrab.defaultGrab →
          (meta_wayland_pointer_begin_modal p).1 = true
            ∧ (meta_wayland_pointer_begin_modal p).2.1.grab
                = PointerGrab.modal) := by
  refine ⟨?_, ?_, ?_⟩
  · cases hg : p.grab with
    | defaultGrab => exact Or.inl rfl
    | modal => exact Or.inr (Or.inl rfl)
    | popup g => exact Or.inr (Or.inr ⟨g, rfl⟩)
  · intro h
    simp [meta_wayland_pointer_begin_modal, h]
  · intro h
    constructor
    · simp [meta_wayland_pointer_begin_modal, h]
    · simp only [meta_wayland_pointer_begin_modal, h, ne_eq,
        not_true_eq_false, if_false]
      unfold meta_wayland_pointer_start_grab
      cases hc : (meta_wayland_pointer_set_focus p none).1.current with
      | none => simp [hc]
      | some c => simp [hc, grab_interface_focus]

/-- C8 witness: begin_modal applied under an active modal grab (returns
false, unchanged) and under the default grab (returns true, modal
installed). -/
theorem begin_modal_exclusive_witness :
    (meta_wayland_pointer_begin_modal
        { grab := PointerGrab.modal, focus := none, focus_resource := none,
          focus_serial := 0, button_count := 0, current := none,
          resource_list := [], kbd_resource_list := [], serial := 0 } =
      (false,
        { grab := PointerGrab.modal, focus := none, focus_resource := none,
          focus_serial := 0, button_count := 0, current := none,
          resource_list := [], kbd_resource_list := [], serial := 0 }, []))
      ∧ ((meta_wayland_pointer_begin_modal
          { grab := PointerGrab.defaultGrab, focus := none,
            focus_resource := none, focus_serial := 0, button_count := 0,
            current := none, resource_list := [], kbd_resource_list := [],
            serial := 0 }).1 = true) :=
  ⟨(begin_modal_exclusive
      { grab := PointerGrab.modal, focus := none, focus_resource := none,
        focus_serial := 0, button_count := 0, current := none,
        resource_list := [], kbd_resource_list := [], serial := 0 }).2.1
      (by simp),
   ((begin_modal_exclusive
      { grab := PointerGrab.defaultGrab, focus := none,
        focus_resource := none, focus_serial := 0, button_count := 0,
        current := none, resource_list := [], kbd_resource_list := [],
        serial := 0 }).2.2 rfl).1⟩

/-- C4: evaluation of meta_wayland_pointer_start_popup_grab at the failing
input.  While the popup grab owned by client 7 is active, a request for a
new popup surface of a different client (client 9) fails and changes
nothing — as the claim says — but a request for a popup surface of the
same client 7 also fails with false and an unchanged grab, although the
claim (and the dead same-client code path in the source) says it must
succeed and add the surface to the tracked set. -/
theorem start_popup_grab_same_client_also_fails :
    meta_wayland_pointer_start_popup_grab popupGrabPointer ⟨2, 9⟩ =
        (false, popupGrabPointer, [])
      ∧ meta_wayland_pointer_start_popup_grab popupGrabPointer ⟨2, 7⟩ =
        (false, popupGrabPointer, []) := by
  exact ⟨rfl, rfl⟩

/- Helper lemmas for the popup grab lifecycle. -/
theorem end_grab_grab (p : MetaWaylandPointer) :
    (meta_wayland_pointer_end_grab p).1.grab = PointerGrab.defaultGrab := by
  unfold meta_wayland_pointer_end_grab
  rw [default_grab_focus_grab]

theorem end_popup_grab_default (p : MetaWaylandPointer)
    (g : MetaWaylandPopupGrab) (hp : p.grab = PointerGrab.popup g) :
    (meta_wayland_pointer_end_popup_grab p).1.grab = PointerGrab.defaultGrab
      ∧ ∀ s ∈ g.all_popups,
          PointerMsg.popup_done s ∈ (meta_wayland_pointer_end_popup_grab p).2 := by
  unfold meta_wayland_pointer_end_popup_grab
  rw [hp]
  refine ⟨end_grab_grab p, ?_⟩
  intro s hs
  simp only [List.mem_append, List.mem_map]
  exact Or.inl ⟨s, hs, rfl⟩

/-- C7: A popup grab ends in exactly two situations.  A button event ends
it iff it is a release arriving with zero buttons held and no focus
resource (the event landed outside any owned popup); a popup-surface
destruction ends it iff the tracked set becomes empty once the destroyed
popup is removed.  Motion never ends it.  When it ends, every popup still
tracked receives a popup_done notification and the active grab reverts to
the default grab; when a destruction does not end it, the grab stays a
popup grab tracking the remaining popups. -/
theorem popup_grab_ends_exactly (p : MetaWaylandPointer)
    (g : MetaWaylandPopupGrab) (hp : p.grab = PointerGrab.popup g)
    (pressed : Bool) (button : Nat) (sid : Nat) :
    ((popup_grab_button p pressed button).1.grab = PointerGrab.defaultGrab
        ↔ (pressed = false ∧ p.button_count = 0 ∧ p.focus_resource = none))
      ∧ ((on_popup_surface_destroy p sid).1.grab = PointerGrab.defaultGrab
          ↔ g.all_popups.erase sid = [])
      ∧ (p.focus_resource = none → pressed = false → p.button_count = 0 →
          ∀ s ∈ g.all_popups,
            PointerMsg.popup_done s ∈ (popup_grab_button p pressed button).2)
      ∧ ((popup_grab_motion p).1.grab = PointerGrab.popup g)
      ∧ (g.all_popups.erase sid ≠ [] →
          (on_popup_surface_destroy p sid).1.grab =
            PointerGrab.popup { g with all_popups := g.all_popups.erase sid }) := by
  refine ⟨?_, ?_, ?_, ?_, ?_⟩
  · constructor
    · intro hend
      unfold popup_grab_button at hend
      cases hf : p.focus_resource with
      | some r =>
          rw [hf] at hend
          simp only at hend
          rw [default_grab_button_grab, hp] at hend
          exact absurd hend (by simp)
      | none =>
          rw [hf] at hend
          simp only at hend
          by_cases hcond : pressed = false ∧ p.button_count = 0
          · exact ⟨hcond.1, hcond.2, rfl⟩
          · rw [if_neg hcond] at hend
            rw [hp] at hend
            exact absurd hend (by simp)
    · rintro ⟨h1, h2, h3⟩
      unfold popup_grab_button
      rw [h3]
      simp only [h1, h2, and_self, if_true]
      exact (end_popup_grab_default p g hp).1
  · constructor
    · intro hend
      unfold on_popup_surface_destroy at hend
      rw [hp] at hend
      simp only at hend
      by_cases he : g.all_popups.erase sid = []
      · exact he
      · rw [if_neg he] at hend
        exact absurd hend (by simp)
    · intro he
      unfold on_popup_surface_destroy
      rw [hp]
      simp only [he, if_true]
      exact (end_popup_grab_default _ { g with all_popups := [] } rfl).1
  · intro hf h1 h2 s hs
    unfold popup_grab_button
    rw [hf]
    simp only [h1, h2, and_self, if_true]
    exact (end_popup_grab_default p g hp).2 s hs
  · unfold popup_grab_motion default_grab_motion
    cases hf : p.focus_resource <;> simpa using hp
  · intro he
    unfold on_popup_surface_destroy
    rw [hp]
    simp only [he, if_false]

/-- C7 witness: a popup grab of client 7 tracking popups 5 and 6: an
out-of-popup release with zero buttons held ends it and popup 5 is
notified; destroying popup 5 alone keeps the grab with popup 6
tracked. -/
theorem popup_grab_ends_exactly_witness :
    (popup_grab_button
        { grab := PointerGrab.popup { grab_client := 7, all_popups := [5, 6] },
          focus := none, focus_resource := none, focus_serial := 0,
          button_count := 0, current := none, resource_list := [],
          kbd_resource_list := [], serial := 3 } false 1).1.grab
      = PointerGrab.defaultGrab
    ∧ PointerMsg.popup_done 5 ∈ (popup_grab_button
        { grab := PointerGrab.popup { grab_client := 7, all_popups := [5, 6] },
          focus := none, focus_resource := none, focus_serial := 0,
          button_count := 0, current := none, resource_list := [],
          kbd_resource_list := [], serial := 3 } false 1).2
    ∧ (on_popup_surface_destroy
        { grab := PointerGrab.popup { grab_client := 7, all_popups := [5, 6] },
          focus := none, focus_resource := none, focus_serial := 0,
          button_count := 0, current := none, resource_list := [],
          kbd_resource_list := [], serial := 3 } 5).1.grab
      = PointerGrab.popup { grab_client := 7, all_popups := [6] } :=
  ⟨(popup_grab_ends_exactly
      { grab := PointerGrab.popup { grab_client := 7, all_popups := [5, 6] },
        focus := none, focus_resource := none, focus_serial := 0,
        button_count := 0, current := none, resource_list := [],
        kbd_resource_list := [], serial := 3 }
      { grab_client := 7, all_popups := [5, 6] } rfl false 1 5).1.2
      ⟨rfl, rfl, rfl⟩,
   (popup_grab_ends_exactly
      { grab := PointerGrab.popup { grab_client := 7, all_popups := [5, 6] },
        focus := none, focus_resource := none, focus_serial := 0,
        button_count := 0, current := none, resource_list := [],
        kbd_resource_list := [], serial := 3 }
      { grab_client := 7, all_popups := [5, 6] } rfl false 1 5).2.2.1
      rfl rfl rfl 5 (by decide),
   (popup_grab_ends_exactly
      { grab := PointerGrab.popup { grab_client := 7, all_popups := [5, 6] },
        focus := none, focus_resource := none, focus_serial := 0,
        button_count := 0, current := none, resource_list := [],
        kbd_resource_list := [], serial := 3 }
      { grab_client := 7, all_popups := [5, 6] } rfl false 1 5).2.2.2.2
      (by decide)⟩

theorem run_button_reports_append (has_stage is_tablet : Bool) (button : Nat)
    (count : Int) (xs ys : List Bool) :
    run_button_reports has_stage is_tablet button count (xs ++ ys) =
      { count := (run_button_reports has_stage is_tablet button
          (run_button_reports has_stage is_tablet button count xs).count ys).count,
        presses := (run_button_reports has_stage is_tablet button count xs).presses
          + (run_button_reports has_stage is_tablet button
              (run_button_reports has_stage is_tablet button count xs).count ys).presses,
        releases := (run_button_reports has_stage is_tablet button count xs).releases
          + (run_button_reports has_stage is_tablet button
              (run_button_reports has_stage is_tablet button count xs).count ys).releases } := by
  induction xs generalizing count with
  | nil => simp [run_button_reports]
  | cons x rest ih =>
      simp only [List.cons_append, run_button_reports, List.append_eq]
      rw [ih]
      cases x <;> dsimp only <;>
        simp [ButtonRun.mk.injEq, Nat.add_assoc]

theorem run_button_reports_presses (has_stage is_tablet : Bool) (button : Nat)
    (hb : notify_button_forwards has_stage is_tablet button 1 true = true)
    (n : Nat) (count : Int) (hc : 0 ≤ count) :
    run_button_reports has_stage is_tablet button count
        (List.replicate n true) =
      { count := count + n,
        presses := if count = 0 ∧ 0 < n then 1 else 0,
        releases := 0 } := by
  induction n generalizing count with
  | zero => simp [run_button_reports]
  | succ m ih =>
      rw [List.replicate_succ]
      simp only [run_button_reports, update_button_count, if_true]
      rw [ih (count + 1) (by omega)]
      by_cases h0 : count = 0
      · subst h0
        simp only [zero_add]
        rw [hb]
        simp only [ButtonRun.mk.injEq]
        refine ⟨by push_cast; ring, ?_, trivial⟩
        by_cases hm : (1 : Int) = 0 ∧ 0 < m
        · omega
        · simp [hm, Nat.succ_pos]
      · have hfwd : notify_button_forwards has_stage is_tablet button
            (count + 1) true = false := by
          unfold notify_button_forwards
          rw [if_pos]
          exact ⟨rfl, by omega⟩
        rw [hfwd]
        simp only [ButtonRun.mk.injEq, Bool.false_eq_true, if_false]
        refine ⟨by push_cast; ring, ?_, trivial⟩
        have h1 : ¬(count + 1 = 0 ∧ 0 < m) := by omega
        simp [h0, h1]

theorem run_button_reports_releases (has_stage is_tablet : Bool) (button : Nat)
    (hb : notify_button_forwards has_stage is_tablet button 0 false = true)
    (n : Nat) :
    run_button_reports has_stage is_tablet button (n : Int)
        (List.replicate n false) =
      { count := 0,
        presses := 0,
        releases := if 0 < n then 1 else 0 } := by
  induction n with
  | zero => simp [run_button_reports]
  | succ m ih =>
      rw [List.replicate_succ]
      have hcount : update_button_count ((m : Int) + 1) false = (m : Int) := by
        unfold update_button_count
        have : ¬((m : Int) + 1 = 0) := by omega
        simp [this]
      simp only [run_button_reports, Nat.cast_add, Nat.cast_one, hcount, ih]
      by_cases hm : m = 0
      · subst hm
        have hfwd : notify_button_forwards has_stage is_tablet button
            ((0 : Nat) : Int) false = true := by simpa using hb
        simp [hfwd, hb]
      · have hnz : (m : Int) ≠ 0 := by omega
        have hfwd : notify_button_forwards has_stage is_tablet button
            (m : Int) false = false := by
          unfold notify_button_forwards
          rw [if_neg (by simp), if_pos (by simp [hnz])]
        have h1 : 0 < m := Nat.pos_of_ne_zero hm
        simp [hfwd, h1, Nat.succ_pos]

theorem run_button_reports_nonneg (has_stage is_tablet : Bool) (button : Nat)
    (reports : List Bool) (count : Int) (hc : 0 ≤ count) :
    0 ≤ (run_button_reports has_stage is_tablet button count reports).count := by
  induction reports generalizing count with
  | nil => simpa [run_button_reports]
  | cons state rest ih =>
      have hnn : 0 ≤ update_button_count count state := by
        unfold update_button_count
        split
        · omega
        · split <;> omega
      cases state <;>
        simp only [run_button_reports] <;>
        split <;>
        exact ih _ hnn

/-- C5: For N raw press reports of one physical button without
interleaved releases, followed by the N matching releases, exactly one
logical press is forwarded (the one whose pre-increment counter was zero,
i.e. whose post-increment counter is one) and exactly one logical release
(the one whose post-decrement counter is zero); and for any report
sequence at all, the per-button counter never becomes negative, including
on a release arriving with the counter already at zero. -/
theorem button_press_release_dedup (has_stage is_tablet : Bool)
    (button : Nat) (N : Nat) (hN : 1 ≤ N) (hstage : has_stage = true)
    (hnr : 1 ≤ evdev_button_nr is_tablet button
             ∧ evdev_button_nr is_tablet button ≤ 12)
    (reports : List Bool) :
    run_button_reports has_stage is_tablet button 0
        (List.replicate N true ++ List.replicate N false) =
      { count := 0, presses := 1, releases := 1 }
    ∧ 0 ≤ (run_button_reports has_stage is_tablet button 0 reports).count := by
  have hbp : notify_button_forwards has_stage is_tablet button 1 true = true := by
    unfold notify_button_forwards
    rw [if_neg (by simp), if_neg (by simp), if_neg (by simp [hstage]),
        if_neg (by push_neg; omega)]
  have hbr : notify_button_forwards has_stage is_tablet button 0 false = true := by
    unfold notify_button_forwards
    rw [if_neg (by simp), if_neg (by simp), if_neg (by simp [hstage]),
        if_neg (by push_neg; omega)]
  constructor
  · rw [run_button_reports_append]
    rw [run_button_reports_presses has_stage is_tablet button hbp N 0 le_rfl]
    simp only [zero_add]
    rw [run_button_reports_releases has_stage is_tablet button hbr N]
    simp [hN, Nat.lt_of_lt_of_le Nat.zero_lt_one hN]
  · exact run_button_reports_nonneg has_stage is_tablet button reports 0 le_rfl

/-- C5 witness: three presses of BTN_LEFT from virtual devices followed by
three releases collapse to one logical press and one logical release. -/
theorem button_press_release_dedup_witness :
    run_button_reports true false 0x110 0
        (List.replicate 3 true ++ List.replicate 3 false) =
      { count := 0, presses := 1, releases := 1 }
    ∧ 0 ≤ (run_button_reports true false 0x110 0 [false, true]).count :=
  button_press_release_dedup true false 0x110 3 (by decide) rfl
    (by decide) [false, true]

theorem first_free_slot_le_length (ts : List Bool) :
    first_free_slot ts ≤ ts.length := by
  induction ts with
  | nil => simp [first_free_slot]
  | cons b rest ih =>
      cases b <;> simp [first_free_slot] <;> omega

theorem first_free_slot_free (ts : List Bool) :
    ts.getD (first_free_slot ts) false = false := by
  induction ts with
  | nil => simp [first_free_slot]
  | cons b rest ih =>
      cases b with
      | false => simp [first_free_slot]
      | true => simpa [first_free_slot, List.getD_cons_succ] using ih

theorem first_free_slot_least (ts : List Bool) (j : Nat)
    (hj : j < first_free_slot ts) : ts.getD j false = true := by
  induction ts generalizing j with
  | nil => simp [first_free_slot] at hj
  | cons b rest ih =>
      cases b with
      | false => simp [first_free_slot] at hj
      | true =>
          cases j with
          | zero => simp
          | succ k =>
              simp only [first_free_slot, if_true] at hj
              simpa [List.getD_cons_succ] using ih k (by omega)

theorem getD_set_self (ts : List Bool) (i : Nat) (b : Bool)
    (hi : i < ts.length) : (ts.set i b).getD i false = b := by
  simp [List.getD, List.getElem?_set_self, hi]

theorem getD_set_ne (ts : List Bool) (i j : Nat) (b : Bool) (hne : i ≠ j) :
    (ts.set i b).getD j false = ts.getD j false := by
  simp [List.getD, List.getElem?_set_ne, hne]

theorem getD_append_left (ts new : List Bool) (j : Nat)
    (hj : ts.getD j false = true) : (ts ++ new).getD j false = true := by
  have hlt : j < ts.length := by
    by_contra hge
    rw [List.getD_eq_default] at hj
    · exact absurd hj (by simp)
    · omega
  rw [List.getD_append _ _ _ _ hlt]
  exact hj

theorem acquire_slot_lt (ts : List Bool) :
    first_free_slot ts <
      (ensure_seat_slot_allocated ts (first_free_slot ts)).length := by
  unfold ensure_seat_slot_allocated
  have hle := first_free_slot_le_length ts
  split <;> simp [size_increase] <;> omega

theorem touchStep_inv (s : TouchSeat) (op : TouchOp) (hinv : TouchInv s) :
    TouchInv (touchStep s op) := by
  obtain ⟨hnodup, htaken⟩ := hinv
  cases op with
  | down =>
      have hacq : meta_seat_native_acquire_touch_state s.touch_states =
          (first_free_slot s.touch_states,
           (ensure_seat_slot_allocated s.touch_states
               (first_free_slot s.touch_states)).set
             (first_free_slot s.touch_states) true) := rfl
      have hstep : touchStep s TouchOp.down =
          { touch_states := (meta_seat_native_acquire_touch_state
              s.touch_states).2,
            live := (meta_seat_native_acquire_touch_state s.touch_states).1
              :: s.live } := rfl
      rw [hstep, hacq]
      have hslot_lt := acquire_slot_lt s.touch_states
      constructor
      · refine List.nodup_cons.2 ⟨?_, hnodup⟩
        intro hmem
        have h1 := htaken _ hmem
        rw [first_free_slot_free] at h1
        exact absurd h1 (by simp)
      · intro slot hmem
        rcases List.mem_cons.1 hmem with heq | hmem'
        · subst heq
          exact getD_set_self _ _ _ hslot_lt
        · have hne : first_free_slot s.touch_states ≠ slot := by
            intro heq
            have h1 := htaken _ hmem'
            rw [← heq, first_free_slot_free] at h1
            exact absurd h1 (by simp)
          rw [getD_set_ne _ _ _ _ hne]
          unfold ensure_seat_slot_allocated
          split
          · exact getD_append_left _ _ _ (htaken _ hmem')
          · exact htaken _ hmem'
  | up i =>
      cases hget : s.live[i]? with
      | none =>
          have hstep : touchStep s (TouchOp.up i) = s := by
            simp [touchStep, hget]
          rw [hstep]
          exact ⟨hnodup, htaken⟩
      | some slot =>
          have hstep : touchStep s (TouchOp.up i) =
              { touch_states :=
                  meta_seat_native_release_touch_state s.touch_states slot,
                live := s.live.eraseIdx i } := by
            simp [touchStep, hget]
          rw [hstep]
          constructor
          · exact List.Sublist.nodup (List.eraseIdx_sublist s.live i) hnodup
          · intro slot' hmem'
            have hmem'' : slot' ∈ s.live :=
              (List.eraseIdx_sublist s.live i).subset hmem'
            have hne : slot ≠ slot' := by
              intro heq
              subst heq
              obtain ⟨j, hjk, hj⟩ := List.mem_eraseIdx_iff_getElem?.1 hmem'
              obtain ⟨hjlt, hjeq⟩ := List.getElem?_eq_some.1 hj
              obtain ⟨hilt, hieq⟩ := List.getElem?_eq_some.1 hget
              have hinj := List.nodup_iff_injective_getElem.1 hnodup
              have hfin : (⟨j, hjlt⟩ : Fin s.live.length) = ⟨i, hilt⟩ := by
                apply hinj
                simp only
                rw [hjeq, hieq]
              exact hjk (by simpa using congrArg Fin.val hfin)
            show (s.touch_states.set slot false).getD slot' false = true
            rw [getD_set_ne _ _ _ _ hne]
            exact htaken _ hmem''

theorem touchRun_inv (ops : List TouchOp) (s : TouchSeat) (hinv : TouchInv s) :
    TouchInv (ops.foldl touchStep s) := by
  induction ops generalizing s with
  | nil => exact hinv
  | cons op rest ih => exact ih _ (touchStep_inv s op hinv)

theorem first_free_slot_eq (ts : List Bool) (i : Nat)
    (hfree : ts.getD i false = false)
    (htaken : ∀ j < i, ts.getD j false = true) : first_free_slot ts = i := by
  induction ts generalizing i with
  | nil =>
      cases i with
      | zero => rfl
      | succ k =>
          have := htaken 0 (Nat.succ_pos k)
          simp [List.getD] at this
  | cons b rest ih =>
      cases i with
      | zero =>
          simp only [List.getD_cons_zero] at hfree
          simp [first_free_slot, hfree]
      | succ k =>
          have hb := htaken 0 (Nat.succ_pos k)
          simp only [List.getD_cons_zero] at hb
          simp only [first_free_slot, hb, if_true]
          rw [ih k (by simpa [List.getD_cons_succ] using hfree)
              (fun j hj => by simpa [List.getD_cons_succ] using htaken (j + 1) (by omega))]

/-- C9: Touch slot management.  (a) Over every interleaved sequence of
touch-slot acquisitions and releases the live touches always hold
pairwise distinct seat slots; (b) an acquisition returns a free slot and
every smaller slot is taken (it is the lowest free index); (c) after
releasing slot i, the next acquisition returns i whenever every slot
below i is taken (i.e. i is the lowest free index); (d) when no free
slot exists the table grows by the fixed increment of 5 and the slot
just past the old end is returned. -/
theorem touch_slot_management :
    (∀ ops : List TouchOp, (touchRun ops).live.Nodup)
      ∧ (∀ ts : List Bool,
          ts.getD (meta_seat_native_acquire_touch_state ts).1 false = false
            ∧ ∀ j < (meta_seat_native_acquire_touch_state ts).1,
                ts.getD j false = true)
      ∧ (∀ (ts : List Bool) (i : Nat), i < ts.length →
          (∀ j < i, ts.getD j false = true) →
          (meta_seat_native_acquire_touch_state
              (meta_seat_native_release_touch_state ts i)).1 = i)
      ∧ (∀ ts : List Bool, (∀ j < ts.length, ts.getD j false = true) →
          (meta_seat_native_acquire_touch_state ts).1 = ts.length
            ∧ (meta_seat_native_acquire_touch_state ts).2.length
                = ts.length + 5) := by
  refine ⟨?_, ?_, ?_, ?_⟩
  · intro ops
    exact (touchRun_inv ops { touch_states := [], live := [] }
      ⟨List.nodup_nil, by simp⟩).1
  · intro ts
    exact ⟨first_free_slot_free ts, fun j hj => first_free_slot_least ts j hj⟩
  · intro ts i hi htaken
    show first_free_slot (meta_seat_native_release_touch_state ts i) = i
    apply first_free_slot_eq
    · unfold meta_seat_native_release_touch_state
      exact getD_set_self ts i false hi
    · intro j hj
      unfold meta_seat_native_release_touch_state
      rw [getD_set_ne _ _ _ _ (by omega)]
      exact htaken j hj
  · intro ts htaken
    have hffs : first_free_slot ts = ts.length := by
      apply first_free_slot_eq
      · exact List.getD_eq_default _ _ le_rfl
      · exact htaken
    constructor
    · exact hffs
    · show ((ensure_seat_slot_allocated ts (first_free_slot ts)).set
          (first_free_slot ts) true).length = ts.length + 5
      rw [List.length_set]
      unfold ensure_seat_slot_allocated
      rw [hffs, if_pos le_rfl]
      simp [size_increase]

/-- C9 witness: with slots 0 and 1 taken, acquisition scans to slot 2;
releasing slot 0 makes the next acquisition return 0; a full 2-slot table
is grown to 7 entries handing out slot 2; and a concrete
down/down/up/down run keeps live slots distinct. -/
theorem touch_slot_management_witness :
    ([true, true, false].getD
        (meta_seat_native_acquire_touch_state [true, true, false]).1 false
        = false)
      ∧ (meta_seat_native_acquire_touch_state
          (meta_seat_native_release_touch_state [true, true] 0)).1 = 0
      ∧ (meta_seat_native_acquire_touch_state [true, true]).1 = 2
      ∧ (meta_seat_native_acquire_touch_state [true, true]).2.length = 7
      ∧ (touchRun [TouchOp.down, TouchOp.down, TouchOp.up 0,
            TouchOp.down]).live.Nodup :=
  ⟨(touch_slot_management.2.1 [true, true, false]).1,
   touch_slot_management.2.2.1 [true, true] 0 (by decide) (by omega),
   (touch_slot_management.2.2.2 [true, true] (by decide)).1,
   (touch_slot_management.2.2.2 [true, true] (by decide)).2,
   touch_slot_management.1 [TouchOp.down, TouchOp.down, TouchOp.up 0,
     TouchOp.down]⟩

theorem check_nonneg (a : ℚ) (ha : 0 ≤ a) :
    check_notify_discrete_scroll a =
      (List.replicate (⌊a / 10⌋).toNat ScrollDir.right,
        a - 10 * (⌊a / 10⌋ : ℚ)) := by
  unfold check_notify_discrete_scroll DISCRETE_SCROLL_STEP fmodQ truncQ
  rw [abs_of_nonneg ha]
  dsimp only
  rw [if_pos (show (0:ℚ) ≤ a / 10 by positivity)]
  rcases eq_or_lt_of_le ha with heq | hlt
  · rw [← heq]
    norm_num
  · rw [if_pos hlt]

theorem runScroll_nonneg (ds : List ℚ) : ∀ (a : ℚ), 0 ≤ a → a < 10 →
    (∀ d ∈ ds, 0 ≤ d) →
    runScroll a (ds.map (fun d => (d, false))) =
      (List.replicate (⌊(a + ds.sum) / 10⌋).toNat ScrollDir.right,
        (a + ds.sum) - 10 * (⌊(a + ds.sum) / 10⌋ : ℚ)) := by
  induction ds with
  | nil =>
      intro a ha0 ha10 _
      have hfl : ⌊a / 10⌋ = 0 := by
        rw [Int.floor_eq_zero_iff]
        constructor
        · positivity
        · rw [div_lt_one (by norm_num)]
          simpa using ha10
      simp [runScroll, hfl]
  | cons d rest ih =>
      intro a ha0 ha10 hd
      have hd0 : 0 ≤ d := hd d (List.mem_cons_self d rest)
      have hrest : ∀ x ∈ rest, 0 ≤ x := fun x hx => hd x (List.mem_cons_of_mem d hx)
      have hsum0 : 0 ≤ rest.sum := List.sum_nonneg hrest
      have had : 0 ≤ a + d := by linarith
      have hM0 : 0 ≤ ⌊(a + d) / 10⌋ := Int.floor_nonneg.2 (by positivity)
      have hrem0 : 0 ≤ (a + d) - 10 * ((⌊(a + d) / 10⌋ : ℤ) : ℚ) := by
        have h1 := Int.floor_le ((a + d) / 10)
        have h2 : ((⌊(a + d) / 10⌋ : ℤ) : ℚ) * 10 ≤ (a + d) / 10 * 10 := by
          exact mul_le_mul_of_nonneg_right h1 (by norm_num)
        rw [div_mul_cancel₀ _ (by norm_num : (10:ℚ) ≠ 0)] at h2
        linarith
      have hrem10 : (a + d) - 10 * ((⌊(a + d) / 10⌋ : ℤ) : ℚ) < 10 := by
        have h1 := Int.lt_floor_add_one ((a + d) / 10)
        have h2 : (a + d) / 10 * 10 < ((⌊(a + d) / 10⌋ : ℤ) + 1 : ℚ) * 10 := by
          exact mul_lt_mul_of_pos_right h1 (by norm_num)
        rw [div_mul_cancel₀ _ (by norm_num : (10:ℚ) ≠ 0)] at h2
        push_cast at h2 ⊢
        linarith
      simp only [List.map_cons, runScroll,
        meta_seat_native_notify_scroll_continuous, Bool.false_eq_true,
        if_false]
      rw [check_nonneg (a + d) had]
      rw [ih _ hrem0 hrem10 hrest]
      have hfloor : ⌊((a + d) - 10 * ((⌊(a + d) / 10⌋ : ℤ) : ℚ) + rest.sum) / 10⌋
          = ⌊(a + (d + rest.sum)) / 10⌋ - ⌊(a + d) / 10⌋ := by
        rw [show ((a + d) - 10 * ((⌊(a + d) / 10⌋ : ℤ) : ℚ) + rest.sum) / 10
            = (a + (d + rest.sum)) / 10 - ((⌊(a + d) / 10⌋ : ℤ) : ℚ) by ring]
        exact Int.floor_sub_int _ _
      have hF0 : ⌊(a + d) / 10⌋ ≤ ⌊(a + (d + rest.sum)) / 10⌋ := by
        have h1 : 0 ≤ ⌊(a + d - 10 * ((⌊(a + d) / 10⌋ : ℤ) : ℚ) + rest.sum) / 10⌋ :=
          Int.floor_nonneg.2 (div_nonneg (by linarith) (by norm_num))
        omega
      rw [List.sum_cons, hfloor]
      simp only [Prod.mk.injEq]
      constructor
      · have htoNat : ⌊(a + d) / 10⌋.toNat
            + (⌊(a + (d + rest.sum)) / 10⌋ - ⌊(a + d) / 10⌋).toNat
            = ⌊(a + (d + rest.sum)) / 10⌋.toNat := by omega
        rw [← htoNat, List.replicate_add]
      · push_cast
        ring

theorem truncQ_neg (q : ℚ) : truncQ (-q) = -truncQ q := by
  unfold truncQ
  rcases lt_trichotomy q 0 with h | h | h
  · rw [if_pos (by linarith), if_neg (by linarith)]
    simp
  · subst h
    norm_num
  · rw [if_neg (by linarith), if_pos (by linarith)]
    simp

theorem fmodQ_neg (x y : ℚ) : fmodQ (-x) y = -fmodQ x y := by
  unfold fmodQ
  rw [neg_div, truncQ_neg]
  push_cast
  ring

theorem check_neg (a : ℚ) :
    check_notify_discrete_scroll (-a) =
      ((check_notify_discrete_scroll a).1.map dirFlip,
        -(check_notify_discrete_scroll a).2) := by
  unfold check_notify_discrete_scroll
  rw [abs_neg, fmodQ_neg]
  simp only [Prod.mk.injEq, and_true]
  rcases lt_trichotomy a 0 with h | h | h
  · rw [if_pos (by linarith), if_neg (by linarith)]
    simp [List.map_replicate, dirFlip]
  · subst h
    norm_num [DISCRETE_SCROLL_STEP]
  · rw [if_neg (by linarith), if_pos (by linarith)]
    simp [List.map_replicate, dirFlip]

theorem runScroll_neg (ds : List (ℚ × Bool)) : ∀ (a : ℚ),
    runScroll (-a) (ds.map (fun p => (-p.1, p.2))) =
      ((runScroll a ds).1.map dirFlip, -(runScroll a ds).2) := by
  induction ds with
  | nil => intro a; simp [runScroll]
  | cons p rest ih =>
      intro a
      obtain ⟨d, f⟩ := p
      cases f with
      | false =>
          simp only [List.map_cons, runScroll,
            meta_seat_native_notify_scroll_continuous, Bool.false_eq_true,
            if_false]
          rw [show -a + -d = -(a + d) by ring, check_neg]
          rw [ih (check_notify_discrete_scroll (a + d)).2]
          simp [List.map_append]
      | true =>
          simp only [List.map_cons, runScroll,
            meta_seat_native_notify_scroll_continuous, if_true]
          have h0 : check_notify_discrete_scroll 0 =
              (([] : List ScrollDir), (0 : ℚ)) := by
            have := check_nonneg 0 le_rfl
            simpa using this
          rw [h0]
          have ih0 : runScroll 0 (rest.map (fun p => (-p.1, p.2))) =
              ((runScroll 0 rest).1.map dirFlip, -(runScroll 0 rest).2) := by
            simpa using ih 0
          simp only []
          rw [ih0]
          simp [List.map_append]

theorem check_scroll_zero :
    check_notify_discrete_scroll 0 = ([], 0) := by
  have h := check_nonneg 0 le_rfl
  simpa using h

theorem runScroll_exact_steps (ds : List ℚ) (k : Nat)
    (hd : ∀ d ∈ ds, 0 ≤ d) (hsum : ds.sum = 10 * k) :
    runScroll 0 (ds.map (fun d => (d, false)))
      = (List.replicate k ScrollDir.right, 0) := by
  have h := runScroll_nonneg ds 0 le_rfl (by norm_num) hd
  rw [hsum] at h
  rw [h]
  have hfl : ⌊((0:ℚ) + 10 * k) / 10⌋ = k := by
    rw [zero_add, show ((10:ℚ) * k) / 10 = (k:ℚ) by field_simp]
    exact Int.floor_natCast k
  rw [hfl]
  simp only [Int.toNat_natCast, Prod.mk.injEq, true_and]
  push_cast
  ring

/-- C6 counterexample: the deltas +10 then −10 (no finish flags) have
cumulative total 0 = 0 × 10, so the claim says 0 discrete events may be
synthesized; the code synthesizes two (one right, then one left). -/
theorem scroll_mixed_sign_counterexample :
    runScroll 0 [((10 : ℚ), false), (-10, false)] =
      ([ScrollDir.right, ScrollDir.left], 0)
      ∧ ((10 : ℚ) + (-10 + 0) = 0) := by
  have h10 : check_notify_discrete_scroll 10 = ([ScrollDir.right], 0) := by
    rw [check_nonneg 10 (by norm_num)]
    rw [show ((10:ℚ)) / 10 = ((1:ℤ) : ℚ) by norm_num, Int.floor_intCast]
    norm_num
  have hm10 : check_notify_discrete_scroll (-10) = ([ScrollDir.left], 0) := by
    have h := check_neg 10
    rw [h10] at h
    simpa [dirFlip] using h
  constructor
  · have h010 : check_notify_discrete_scroll ((0:ℚ) + 10)
        = ([ScrollDir.right], 0) := by
      rw [show (0:ℚ) + 10 = 10 by norm_num]
      exact h10
    simp only [runScroll, meta_seat_native_notify_scroll_continuous,
      Bool.false_eq_true, if_false, h010]
    norm_num [hm10]
  · norm_num

/-- C6 amended: for a sequence of continuous deltas of one uniform sign
on one axis without finish flags whose cumulative magnitude is exactly
k×10 native units, exactly k discrete events are synthesized, all in the
direction of that sign, and the accumulator ends at the true remainder 0;
and a finish flag for the axis resets its accumulator to zero immediately
(synthesizing nothing).  (With mixed-sign deltas the per-step
floor/fmod discretization can emit events even when the total is 0, so
uniformity of sign is required.) -/
theorem sum_map_neg (l : List ℚ) : (l.map (fun d => -d)).sum = -l.sum := by
  induction l with
  | nil => simp
  | cons x rest ih =>
      simp only [List.map_cons, List.sum_cons, ih]
      ring

theorem scroll_discretization (ds : List ℚ) (k : Nat) :
    ((∀ d ∈ ds, 0 ≤ d) → ds.sum = 10 * k →
        runScroll 0 (ds.map (fun d => (d, false)))
          = (List.replicate k ScrollDir.right, 0))
      ∧ ((∀ d ∈ ds, d ≤ 0) → ds.sum = -(10 * k) →
          runScroll 0 (ds.map (fun d => (d, false)))
            = (List.replicate k ScrollDir.left, 0))
      ∧ (∀ (a delta : ℚ),
          meta_seat_native_notify_scroll_continuous a delta true = ([], 0)) := by
  refine ⟨?_, ?_, ?_⟩
  · intro hd hsum
    exact runScroll_exact_steps ds k hd hsum
  · intro hd hsum
    have hes : ∀ d ∈ ds.map (fun d => -d), 0 ≤ d := by
      intro d hdm
      obtain ⟨x, hx, rfl⟩ := List.mem_map.1 hdm
      have := hd x hx
      linarith
    have hsum_es : (ds.map (fun d => -d)).sum = 10 * k := by
      rw [sum_map_neg, hsum]
      ring
    have hpos := runScroll_exact_steps (ds.map (fun d => -d)) k hes hsum_es
    have hneg2 := runScroll_neg
      ((ds.map (fun d => -d)).map (fun d => (d, false))) 0
    rw [hpos] at hneg2
    simp only [neg_zero, List.map_map] at hneg2
    have hmap2 : List.map ((fun p => (-(p : ℚ × Bool).1, p.2))
          ∘ (fun d => ((d : ℚ), false)) ∘ fun d => (-d : ℚ)) ds
        = List.map (fun d => ((d : ℚ), false)) ds := by
      simp [Function.comp]
    rw [hmap2] at hneg2
    rw [hneg2]
    simp [List.map_replicate, dirFlip]
  · intro a delta
    show check_notify_discrete_scroll 0 = ([], 0)
    exact check_scroll_zero

/-- C6 witness: deltas +5 then +15 yield exactly two right events and
residual 0; deltas −20 alone yield two left events; a finish flag with
accumulator 3 and delta 7 resets to zero with no event. -/
theorem scroll_discretization_witness :
    runScroll 0 [((5 : ℚ), false), (15, false)]
        = (List.replicate 2 ScrollDir.right, 0)
      ∧ runScroll 0 [((-20 : ℚ), false)]
        = (List.replicate 2 ScrollDir.left, 0)
      ∧ meta_seat_native_notify_scroll_continuous 3 7 true = ([], 0) :=
  ⟨(scroll_discretization [5, 15] 2).1
      (by intro d hd; fin_cases hd <;> norm_num) (by norm_num),
   (scroll_discretization [-20] 2).2.1
      (by intro d hd; fin_cases hd <;> norm_num) (by norm_num),
   (scroll_discretization [] 0).2.2 3 7⟩
